import Mathlib

/-!
Verification of the autonomous agent framework
(`autonomous_agent_framework.py`): a shallow embedding of its data model
(goals, tasks, agents, orchestrator) and of the operations the claims are
about, followed by theorems settling each claim.

Modelling conventions: Python floats are modelled as exact rationals,
`datetime` values as natural-number timestamps, and dictionaries as
insertion-ordered association lists, matching Python dict semantics
(assignment keeps the position of an existing key and appends a new one).
A Python operation that can raise is modelled in `Except`/`Option`, with
the error value standing for the raised exception.
-/

/-- Python values stored in metric maps, success criteria, task parameters,
configs and learning memory: numbers, strings, booleans (which Python
treats as numeric), and the one nested dictionary the code builds
(`common_errors`, a counter from error-category strings to counts). -/
inductive PyVal where
  | num (q : ℚ)
  | str (s : String)
  | pybool (b : Bool)
  | counter (c : List (String × Nat))
deriving DecidableEq

/-- Numeric view of a Python value: `isinstance(x, (int, float))` holds
for ints, floats and bools (`bool` is a subtype of `int` in Python), and
a bool compares numerically as 1 or 0. -/
def PyVal.toNumQ : PyVal → Option ℚ
  | .num q => some q
  | .pybool b => some (if b then 1 else 0)
  | _ => none

/-- Dictionary lookup on an association list (Python `d[k]`, `d.get(k)`). -/
def lookupK (k : String) : List (String × α) → Option α
  | [] => none
  | (k', v) :: rest => if k' = k then some v else lookupK k rest

/-- Python dict assignment `d[k] = v`: replace in place if the key exists
(keeping its position), append otherwise. -/
def setK (k : String) (v : α) : List (String × α) → List (String × α)
  | [] => [(k, v)]
  | (k', v') :: rest => if k' = k then (k, v) :: rest else (k', v') :: setK k v rest

/-- Python `del d[k]`, removing the (unique) binding of `k`. Dicts built
through `setK` bind each key at most once, so removing the first
occurrence is exact. Callers check presence first: `del` on a missing key
raises `KeyError`, which the caller models as failure. -/
def delK (k : String) : List (String × α) → List (String × α)
  | [] => []
  | (k', v') :: rest => if k' = k then rest else (k', v') :: delK k rest

/-- Python `k in d`. -/
def containsK (k : String) (m : List (String × α)) : Bool :=
  (lookupK k m).isSome

/-- Python `==` on the embedded values: numeric values compare by value
(so `True == 1`), strings by content, dicts by key-value content
(order-insensitive), and any other mixed comparison is `False`. -/
def pyEq (a b : PyVal) : Bool :=
  match a.toNumQ, b.toNumQ with
  | some x, some y => x == y
  | _, _ =>
    match a, b with
    | .str x, .str y => x == y
    | .counter c, .counter d =>
        c.all (fun p => lookupK p.1 d == some p.2) &&
        d.all (fun p => lookupK p.1 c == some p.2)
    | _, _ => false

/-- Python `a >= b` on embedded values: defined between two numerics and
between two strings; any other pairing raises `TypeError`. -/
def pyGe (a b : PyVal) : Except String Bool :=
  match a.toNumQ, b.toNumQ with
  | some x, some y => .ok (y ≤ x)
  | _, _ =>
    match a, b with
    | .str x, .str y => .ok (y ≤ x)
    | _, _ => .error "TypeError"

/-- Agent operational states (`class AgentState(Enum)`). -/
inductive AgentState where
  | INITIALIZING
  | IDLE
  | PLANNING
  | EXECUTING
  | LEARNING
  | COLLABORATING
  | PAUSED
  | ERROR
deriving DecidableEq

/-- The string payload of each `AgentState` member (`state.value`). -/
def AgentState.value : AgentState → String
  | .INITIALIZING => "initializing"
  | .IDLE => "idle"
  | .PLANNING => "planning"
  | .EXECUTING => "executing"
  | .LEARNING => "learning"
  | .COLLABORATING => "collaborating"
  | .PAUSED => "paused"
  | .ERROR => "error"

/-- Task priority levels (`class AgentPriority(Enum)`). -/
inductive AgentPriority where
  | CRITICAL
  | HIGH
  | NORMAL
  | LOW
  | BACKGROUND
deriving DecidableEq

/-- The numeric payload of each `AgentPriority` member (`priority.value`). -/
def AgentPriority.value : AgentPriority → Nat
  | .CRITICAL => 1
  | .HIGH => 2
  | .NORMAL => 3
  | .LOW => 4
  | .BACKGROUND => 5

/-- A high-level goal (`@dataclass AgentGoal`). Fresh uuid ids are opaque
strings supplied at construction. -/
structure AgentGoal where
  id : String := ""
  description : String := ""
  success_criteria : List (String × PyVal) := []
  deadline : Option Nat := none
  priority : AgentPriority := .NORMAL
  progress : ℚ := 0
  completed : Bool := false
deriving DecidableEq

/-- A concrete task (`@dataclass AgentTask`). -/
structure AgentTask where
  id : String := ""
  goal_id : String := ""
  action : String := ""
  parameters : List (String × PyVal) := []
  priority : AgentPriority := .NORMAL
  scheduled_time : Option Nat := none
  max_retries : Nat := 3
  retry_count : Nat := 0
  completed : Bool := false
  result : Option PyVal := none
  error : Option String := none
deriving DecidableEq

/-- The fixed-key `self.metrics` dictionary, as a record. -/
structure Metrics where
  tasks_completed : Nat := 0
  goals_achieved : Nat := 0
  uptime_hours : ℚ := 0
  decisions_made : Nat := 0
  errors_recovered : Nat := 0
  value_generated : ℚ := 0
deriving DecidableEq

/-- An autonomous agent (`class AutonomousAgent`), with the attributes the
verified operations read or write. `decision_threshold`,
`learning_rate` and `max_autonomous_days` are attributes Python only
creates inside `initialize`; the record carries the documented defaults
until `initAgent` overwrites them from the config. -/
structure AutonomousAgent where
  agent_id : String
  agent_type : String
  state : AgentState := .INITIALIZING
  goals : List AgentGoal := []
  task_queue : List AgentTask := []
  completed_tasks : List AgentTask := []
  learning_memory : List (String × PyVal) := []
  metrics : Metrics := {}
  is_running : Bool := false
  start_time : Option Nat := none
  last_human_interaction : Nat := 0
  max_autonomous_days : ℚ := 7
  decision_threshold : ℚ := 4/5
  learning_rate : ℚ := 1/10
deriving DecidableEq

/-- Goal progress (`AgentGoal.evaluate_progress`): iterate the success
criteria, counting a criterion whose metric is present and `>=` the
target (numeric target) or `==` the target (otherwise). `pyGe` can raise
`TypeError`, which aborts the whole evaluation as in Python. -/
def evalCriteria (metrics : List (String × PyVal)) :
    List (String × PyVal) → Nat → Except String Nat
  | [], met => .ok met
  | (criterion, target) :: rest, met =>
    match lookupK criterion metrics with
    | none => evalCriteria metrics rest met
    | some v =>
      if (PyVal.toNumQ target).isSome then
        match pyGe v target with
        | .error e => .error e
        | .ok b => evalCriteria metrics rest (if b then met + 1 else met)
      else
        evalCriteria metrics rest (if pyEq v target then met + 1 else met)

/-- Body of `AgentGoal.evaluate_progress`: 0 for empty criteria, else
`met_criteria / len(success_criteria)`. -/
def AgentGoal.evaluate_progress (g : AgentGoal) (metrics : List (String × PyVal)) :
    Except String ℚ :=
  if g.success_criteria = [] then .ok 0
  else
    match evalCriteria metrics g.success_criteria 0 with
    | .error e => .error e
    | .ok met => .ok ((met : ℚ) / (g.success_criteria.length : ℚ))

/-- Sort key of `task_queue.sort(key=lambda t: (t.priority.value,
t.scheduled_time or datetime.max))`: priority value first, then the
scheduled time with an absent time reading as `datetime.max`, encoded as
a flag that orders after every concrete timestamp. -/
def taskKey (t : AgentTask) : Nat × Nat × Nat :=
  (t.priority.value,
   (match t.scheduled_time with | none => 1 | some _ => 0),
   (match t.scheduled_time with | none => 0 | some n => n))

/-- Strict lexicographic order on sort keys. -/
def keyLtB (a b : Nat × Nat × Nat) : Bool :=
  decide (a.1 < b.1) ||
    (decide (a.1 = b.1) &&
      (decide (a.2.1 < b.2.1) ||
        (decide (a.2.1 = b.2.1) && decide (a.2.2 < b.2.2))))

/-- Stable insertion of a task into an already-processed prefix: the new
task goes before the first strictly greater key, hence after every equal
key, exactly the tie-breaking Python's stable `list.sort` produces. -/
def insertTask (t : AgentTask) : List AgentTask → List AgentTask
  | [] => [t]
  | u :: us => if keyLtB (taskKey t) (taskKey u) then t :: u :: us else u :: insertTask t us

/-- Python's stable `list.sort(key=...)`, modelled as a left-to-right
stable insertion sort (any stable sort computes the same list). -/
def sortTasks (ts : List AgentTask) : List AgentTask :=
  ts.foldl (fun acc t => insertTask t acc) []

/-- Queue-level body of `AutonomousAgent.add_task`: append, then sort by
the priority key. -/
def enqueue (q : List AgentTask) (t : AgentTask) : List AgentTask :=
  sortTasks (q ++ [t])

/-- `AutonomousAgent.add_task`. -/
def AutonomousAgent.add_task (a : AutonomousAgent) (t : AgentTask) : AutonomousAgent :=
  { a with task_queue := enqueue a.task_queue t }

/-- Python `pat in s` on strings, auxiliary: `pat` matches at the front. -/
def matchesAt : List Char → List Char → Bool
  | [], _ => true
  | _ :: _, [] => false
  | c :: cs, d :: ds => c == d && matchesAt cs ds

/-- Contiguous-substring occurrence, Python's `in` for strings. -/
def occursIn (pat : List Char) : List Char → Bool
  | [] => matchesAt pat []
  | d :: ds => matchesAt pat (d :: ds) || occursIn pat ds

/-- Python's `str.lower()`, as character-wise ASCII lowering over the
string's characters (`Char.toLower`; descriptions in this code base are
ASCII). -/
def pyLower (s : String) : List Char := s.toList.map Char.toLower

/-- Rule-based goal decomposition (`AutonomousAgent.decompose_goal`):
only the keyword "optimize" (case-insensitively, via
`goal.description.lower()`) is recognized and yields three hardcoded
tasks; anything else yields none. Fresh uuid task ids are modelled by the
dataclass default `""` (no verified operation reads a task id). -/
def AutonomousAgent.decompose_goal (_a : AutonomousAgent) (goal : AgentGoal) :
    List AgentTask :=
  if occursIn "optimize".toList (pyLower goal.description) then
    [{ goal_id := goal.id, action := "analyze_current_state",
       parameters := [("target", .str "performance_metrics")], priority := .HIGH },
     { goal_id := goal.id, action := "identify_bottlenecks",
       parameters := [("threshold", .num (7/10))], priority := .HIGH },
     { goal_id := goal.id, action := "implement_optimizations",
       parameters := [("auto_approve", .pybool true)], priority := .NORMAL }]
  else []

/-- `AutonomousAgent.should_learn`: learn after every 10 completed tasks. -/
def AutonomousAgent.should_learn (a : AutonomousAgent) : Bool :=
  a.completed_tasks.length % 10 = 0 && a.completed_tasks.length > 0

/-- State re-evaluation (`AutonomousAgent.update_state`): an agent in
`ERROR` is left alone; otherwise a non-empty queue in `IDLE`, or an empty
queue with a non-empty goals list, moves to `PLANNING`; otherwise
`should_learn` moves to `LEARNING`; otherwise nothing changes. -/
def AutonomousAgent.update_state (a : AutonomousAgent) : AutonomousAgent :=
  if a.state = .ERROR then a
  else if a.task_queue ≠ [] ∧ a.state = .IDLE then { a with state := .PLANNING }
  else if a.task_queue = [] ∧ a.goals ≠ [] then { a with state := .PLANNING }
  else if a.should_learn then { a with state := .LEARNING }
  else a

/-- One pass of `AutonomousAgent.execute_tasks`, parameterized by the
task-action handler (`execute_single_task`, overridden per agent type);
`.error e` stands for the handler raising an exception rendered as `e`.
An empty queue sends the agent back to `IDLE`; otherwise the head task is
popped and run: on success it is marked completed and appended to
`completed_tasks`; on failure its error and retry count are updated and
it is either re-enqueued (budget remaining) or appended to
`completed_tasks` as failed-exhausted. -/
def AutonomousAgent.execute_tasks (h : AgentTask → Except String PyVal)
    (a : AutonomousAgent) : AutonomousAgent :=
  match a.task_queue with
  | [] => { a with state := .IDLE }
  | task :: rest =>
    match h task with
    | .ok r =>
      let task := { task with result := some r, completed := true }
      { a with task_queue := rest,
               completed_tasks := a.completed_tasks ++ [task],
               metrics := { a.metrics with
                            tasks_completed := a.metrics.tasks_completed + 1 } }
    | .error e =>
      let task := { task with error := some e, retry_count := task.retry_count + 1 }
      if task.retry_count < task.max_retries then
        AutonomousAgent.add_task { a with task_queue := rest } task
      else
        { a with task_queue := rest, completed_tasks := a.completed_tasks ++ [task] }

/-- Iterated task-execution steps (`execute_tasks` run `k` times). -/
def iterExec (h : AgentTask → Except String PyVal) :
    Nat → AutonomousAgent → AutonomousAgent
  | 0, a => a
  | k + 1, a => AutonomousAgent.execute_tasks h (iterExec h k a)

/-- Python truthiness of `task.error` (`if not task.error`): an unset or
empty error string is falsy. -/
def errFalsy (t : AgentTask) : Bool :=
  match t.error with
  | none => true
  | some s => s = ""

/-- Error-category key: `task.error.split(":")[0]`. `splitOn` never
returns an empty list, so the head always exists. -/
def errCategory (e : String) : String :=
  (e.splitOn ":").headD e

/-- One iteration of the `common_errors` accumulation loop: tasks with a
truthy error bump the counter stored under `"common_errors"` in learning
memory. The fallback arm is unreachable because the loop runs right after
`learning_memory["common_errors"] = {}`. -/
def bumpCommonError (m : List (String × PyVal)) (t : AgentTask) :
    List (String × PyVal) :=
  match t.error with
  | none => m
  | some e =>
    if e = "" then m
    else
      match lookupK "common_errors" m with
      | some (.counter c) =>
        setK "common_errors"
          (.counter (setK (errCategory e) ((lookupK (errCategory e) c).getD 0 + 1) c)) m
      | _ => m

/-- `AutonomousAgent.learn_from_experience`: success rate over the
completed list (Python would raise `ZeroDivisionError` on an empty list;
rational division by zero gives 0, and every theorem below assumes the
list non-empty), stored in learning memory with the error-category
counter, then the decision threshold is adapted and the agent returns to
`IDLE`. -/
def AutonomousAgent.learn_from_experience (a : AutonomousAgent) : AutonomousAgent :=
  let success_rate : ℚ :=
    ((a.completed_tasks.filter (fun t => errFalsy t)).length : ℚ) /
      (a.completed_tasks.length : ℚ)
  let mem := setK "success_rate" (.num success_rate) a.learning_memory
  let mem := setK "common_errors" (.counter []) mem
  let mem := a.completed_tasks.foldl bumpCommonError mem
  let threshold :=
    if success_rate < 4/5 then a.decision_threshold * (9/10)
    else min (19/20) (a.decision_threshold * (21/20))
  { a with learning_memory := mem, decision_threshold := threshold, state := .IDLE }

/-- `AutonomousAgent.receive_knowledge`: non-destructive merge; a key
already in learning memory is skipped, a new key is appended. -/
def AutonomousAgent.receive_knowledge (a : AutonomousAgent)
    (knowledge : List (String × PyVal)) : AutonomousAgent :=
  let mem := knowledge.foldl
    (fun m kv => if containsK kv.1 m then m else m ++ [kv]) a.learning_memory
  { a with learning_memory := mem }

/-- `AutonomousAgent.recover_from_error`, with the caught exception
rendered as a string and the current time injected: bump the
recovered-error counter, clear the queue, reset to `IDLE`, and record the
error and its timestamp in learning memory. The timestamp is stored as
`datetime.now().isoformat()`, modelled by rendering the clock value. -/
def AutonomousAgent.recover_from_error (a : AutonomousAgent)
    (error : String) (now : Nat) : AutonomousAgent :=
  let metrics := { a.metrics with errors_recovered := a.metrics.errors_recovered + 1 }
  let mem := setK "last_error" (.str error) a.learning_memory
  let mem := setK "error_timestamp" (.str (toString now)) mem
  { a with metrics := metrics, task_queue := [], state := .IDLE,
           learning_memory := mem }

/-- `AutonomousAgent.get_status`, the read-only status projection. -/
def AutonomousAgent.get_status (a : AutonomousAgent) : List (String × PyVal) :=
  [("agent_id", .str a.agent_id),
   ("agent_type", .str a.agent_type),
   ("state", .str a.state.value),
   ("goals_active", .num ((a.goals.filter (fun g => !g.completed)).length : ℚ)),
   ("tasks_pending", .num (a.task_queue.length : ℚ)),
   ("tasks_completed", .num (a.metrics.tasks_completed : ℚ)),
   ("uptime_hours", .num a.metrics.uptime_hours),
   ("value_generated", .num a.metrics.value_generated),
   ("last_human_interaction", .str (toString a.last_human_interaction))]

/-- `AutonomousAgent.initialize` (named `initAgent` here): apply the
config (with the documented defaults), record the start time, and move to
`IDLE`. Config values are numeric in every call site. -/
def initAgent (a : AutonomousAgent) (config : List (String × PyVal)) (now : Nat) :
    AutonomousAgent :=
  let getQ (k : String) (d : ℚ) : ℚ :=
    match lookupK k config with
    | some (.num q) => q
    | _ => d
  { a with max_autonomous_days := getQ "max_autonomous_days" 7,
           decision_threshold := getQ "decision_threshold" (4/5),
           learning_rate := getQ "learning_rate" (1/10),
           state := .IDLE,
           start_time := some now }

/-- `AutonomousAgent.shutdown`: stop the run loop. State persistence
(`save_state`, a best-effort file write) has no effect on the in-memory
state and is outside the model. -/
def AutonomousAgent.shutdown (a : AutonomousAgent) : AutonomousAgent :=
  { a with is_running := false }

/-- A freshly constructed `AutonomousAgent(agent_id, agent_type)`;
`last_human_interaction = datetime.now()` is the injected clock value. -/
def newAgent (agent_id agent_type : String) (now : Nat) : AutonomousAgent :=
  { agent_id := agent_id, agent_type := agent_type,
    last_human_interaction := now }

/-- The orchestrator (`class AgentOrchestrator`): the id-keyed agent
registry and the per-type pools. Python aliases one agent object from
both maps; the model stores copies that the verified operations keep
consistent (an agent is never mutated while registered, except through
`scale_fleet`, which removes what it mutates). -/
structure AgentOrchestrator where
  agents : List (String × AutonomousAgent) := []
  agent_pools : List (String × List AutonomousAgent) := []
deriving DecidableEq

/-- `AgentOrchestrator.deploy_agent`: initialize the agent, register it,
append it to its type pool (creating the pool when absent — `setK` on the
pool list is exactly `pools.setdefault(type, []).append(agent)`), and
start its run loop (`asyncio.create_task(agent.run())`, whose first
statement sets `is_running = True`). -/
def AgentOrchestrator.deploy_agent (o : AgentOrchestrator) (agent : AutonomousAgent)
    (config : List (String × PyVal)) (now : Nat) : AgentOrchestrator :=
  let agent := { (initAgent agent config now) with is_running := true }
  { agents := setK agent.agent_id agent o.agents,
    agent_pools :=
      setK agent.agent_type
        ((lookupK agent.agent_type o.agent_pools).getD [] ++ [agent]) o.agent_pools }

/-- Zero-padded fleet index, Python's `f"{i:03d}"`. -/
def pad3 (i : Nat) : String :=
  let s := toString i
  String.mk (List.replicate (3 - s.length) '0') ++ s

/-- `AgentOrchestrator.deploy_agent_fleet`: deploy `count` fresh agents
with ids `f"{agent_type}_{i:03d}"` for `i in range(count)` — the index
always restarts from 0, whatever is already deployed. -/
def AgentOrchestrator.deploy_agent_fleet (o : AgentOrchestrator)
    (agent_type : String) (count : Nat) (config : List (String × PyVal))
    (now : Nat) : AgentOrchestrator :=
  (List.range count).foldl
    (fun o i =>
      o.deploy_agent (newAgent (agent_type ++ "_" ++ pad3 i) agent_type now) config now)
    o

/-- `AgentOrchestrator.get_active_agents`: keep the agents whose status
`"state"` entry is one of `"running"`, `"active"`, `"processing"`
(`status.get("state") in [...]`; a missing key would give `None`, which is
in no such list). -/
def AgentOrchestrator.get_active_agents (o : AgentOrchestrator) :
    List AutonomousAgent :=
  (o.agents.map Prod.snd).filter (fun agent =>
    match lookupK "state" agent.get_status with
    | some v => [PyVal.str "running", .str "active", .str "processing"].any (pyEq v)
    | none => false)

/-- The scale-down loop of `scale_fleet`: `count` times, pop the last
agent of the type pool (`IndexError` on an empty pool ⇒ `none`), shut it
down, and delete its id from the registry (`KeyError` on a missing id ⇒
`none`). Returns the new orchestrator and the removed agents in removal
order (LIFO: last-deployed first). -/
def scaleDown (o : AgentOrchestrator) (agent_type : String) :
    Nat → Option (AgentOrchestrator × List AutonomousAgent)
  | 0 => some (o, [])
  | k + 1 =>
    let pool := (lookupK agent_type o.agent_pools).getD []
    match pool.getLast? with
    | none => none
    | some agent =>
      let agent := agent.shutdown
      if containsK agent.agent_id o.agents then
        match
          scaleDown
            { agents := delK agent.agent_id o.agents,
              agent_pools := setK agent_type pool.dropLast o.agent_pools }
            agent_type k
        with
        | some (o', removed) => some (o', agent :: removed)
        | none => none
      else none

/-- `AgentOrchestrator.scale_fleet`: above the current pool size, deploy
the difference (with config `{"auto_scale": True}`); below it, run the
scale-down loop; at it, do nothing. `none` is a raised exception. -/
def AgentOrchestrator.scale_fleet (o : AgentOrchestrator) (agent_type : String)
    (target_count : Nat) (now : Nat) :
    Option (AgentOrchestrator × List AutonomousAgent) :=
  let current := ((lookupK agent_type o.agent_pools).getD []).length
  if target_count > current then
    some (o.deploy_agent_fleet agent_type (target_count - current)
            [("auto_scale", .pybool true)] now, [])
  else if target_count < current then
    scaleDown o agent_type (current - target_count)
  else
    some (o, [])

/-- Modelled from the claim of C2 (its spec sentence): like
`update_state`, but the empty-queue condition asks for *active* goals
(goals not yet completed) rather than for a non-empty goals list. Used
only to exhibit where the code departs from that sentence. -/
def updateStateClaim (a : AutonomousAgent) : AutonomousAgent :=
  if a.state = .ERROR then a
  else if a.task_queue ≠ [] ∧ a.state = .IDLE then { a with state := .PLANNING }
  else if a.task_queue = [] ∧ a.goals.filter (fun g => !g.completed) ≠ [] then
    { a with state := .PLANNING }
  else if a.should_learn then { a with state := .LEARNING }
  else a

/-- Modelled from the claim of C5 (its spec sentence): a criterion counts
as met when its metric is present and either both sides are numeric with
metric ≥ target, or the target is non-numeric and the metric equals it.
The code agrees whenever no numeric-target criterion meets a non-numeric
metric; `c5_amended` proves that refinement. -/
def criterionMetSpec (metrics : List (String × PyVal)) (criterion : String)
    (target : PyVal) : Bool :=
  match lookupK criterion metrics with
  | none => false
  | some v =>
    match target.toNumQ with
    | some tq =>
      match v.toNumQ with
      | some vq => decide (tq ≤ vq)
      | none => false
    | none => pyEq v target

/-- The failure branch's update of a popped task in `execute_tasks`:
stamp the handler's message into `error` and bump `retry_count`. -/
def failStep (msg : AgentTask → String) (u : AgentTask) : AgentTask :=
  { u with error := some (msg u), retry_count := u.retry_count + 1 }

/-- The head task of an always-failing run after `k` executions. -/
def failIter (msg : AgentTask → String) (t : AgentTask) : Nat → AgentTask
  | 0 => t
  | k + 1 => failStep msg (failIter msg t k)

/-- Tasks of the C6 dequeue-order example. -/
def tLOW : AgentTask := { id := "tL", priority := .LOW }

def tCRIT : AgentTask := { id := "tC", priority := .CRITICAL }

def tNORM : AgentTask := { id := "tN", priority := .NORMAL }

/-- Sortedness of a task queue for the priority key: no later entry has a
strictly smaller key than an earlier one. -/
def TaskSorted (l : List AgentTask) : Prop :=
  l.Pairwise (fun u v => keyLtB (taskKey v) (taskKey u) = false)

/-- The 10-completed-tasks example of C3: 8 clean tasks and 2 tasks with
(non-empty) errors. -/
def c3ExampleTasks : List AgentTask :=
  List.replicate 8 ({ id := "" } : AgentTask) ++
    [{ id := "", error := some "E1:bad" }, { id := "", error := some "E2:bad" }]

/-- The C3 counterexample agent: one completed task whose error is the
empty string. -/
def c3EmptyErrorAgent : AutonomousAgent :=
  { agent_id := "x", agent_type := "t", decision_threshold := 1/2,
    completed_tasks := [{ id := "z", error := some "" }] }

/-- Goal and metrics of the C5 witness: one numeric criterion met
numerically and one string criterion met by equality. -/
def c5WitnessGoal : AgentGoal :=
  { id := "g", success_criteria := [("c", .num 1), ("d", .str "ok")] }

def c5WitnessMetrics : List (String × PyVal) :=
  [("c", .num 2), ("d", .str "ok")]

/-- The C9 concrete scenario: a fresh fleet of 3 agents of one type. -/
def c9Fleet3 : AgentOrchestrator :=
  AgentOrchestrator.deploy_agent_fleet {} "w" 3 [] 0

theorem lookupK_setK_self (k : String) (v : α) (m : List (String × α)) :
    lookupK k (setK k v m) = some v := by
  induction m with
  | nil => simp [setK, lookupK]
  | cons p rest ih =>
    obtain ⟨k', v'⟩ := p
    by_cases h : k' = k
    · simp [setK, h, lookupK]
    · simp [setK, h, lookupK, ih]

theorem lookupK_setK_ne (h : k' ≠ k) (v : α) (m : List (String × α)) :
    lookupK k (setK k' v m) = lookupK k m := by
  induction m with
  | nil => simp [setK, lookupK, h]
  | cons p rest ih =>
    obtain ⟨k'', v''⟩ := p
    by_cases h2 : k'' = k'
    · subst h2
      simp [setK, lookupK, h]
    · simp [setK, h2, lookupK, ih]

theorem lookupK_delK_ne (h : k' ≠ k) (m : List (String × α)) :
    lookupK k (delK k' m) = lookupK k m := by
  induction m with
  | nil => simp [delK, lookupK]
  | cons p rest ih =>
    obtain ⟨k'', v''⟩ := p
    by_cases h2 : k'' = k'
    · subst h2
      simp [delK, lookupK, h, ih]
    · simp [delK, h2, lookupK, ih]

theorem lookupK_append_single (k k' : String) (v : α) (m : List (String × α)) :
    lookupK k (m ++ [(k', v)]) =
      match lookupK k m with
      | some w => some w
      | none => if k' = k then some v else none := by
  induction m with
  | nil => simp [lookupK]
  | cons p rest ih =>
    obtain ⟨k'', v''⟩ := p
    by_cases h : k'' = k
    · simp [lookupK, h]
    · simp [lookupK, h, ih]

/-- C4: for every agent and every error, `recover_from_error` increments
the recovered-error counter by exactly 1, empties the pending task queue,
sets the state to `IDLE`, and records the error description and a
timestamp into learning memory. It is a total function of the embedded
state, so it never re-raises. -/
theorem c4_recover_from_error (a : AutonomousAgent) (e : String) (now : Nat) :
    (a.recover_from_error e now).metrics.errors_recovered =
        a.metrics.errors_recovered + 1 ∧
      (a.recover_from_error e now).task_queue = [] ∧
      (a.recover_from_error e now).state = .IDLE ∧
      lookupK "last_error" (a.recover_from_error e now).learning_memory =
        some (.str e) ∧
      lookupK "error_timestamp" (a.recover_from_error e now).learning_memory =
        some (.str (toString now)) := by
  refine ⟨rfl, rfl, rfl, ?_, ?_⟩
  · show lookupK "last_error"
      (setK "error_timestamp" (.str (toString now))
        (setK "last_error" (.str e) a.learning_memory)) = some (.str e)
    rw [lookupK_setK_ne (by decide), lookupK_setK_self]
  · exact lookupK_setK_self _ _ _

/-- C10: for every orchestrator, `get_active_agents` returns the empty
list: the status `"state"` entry always holds one of the eight
`AgentState` strings, none of which is `"running"`, `"active"` or
`"processing"`. -/
theorem c10_get_active_agents_empty (o : AgentOrchestrator) :
    o.get_active_agents = [] := by
  unfold AgentOrchestrator.get_active_agents
  rw [List.filter_eq_nil_iff]
  intro ag _
  have hstate : lookupK "state" ag.get_status = some (.str ag.state.value) := by
    simp [AutonomousAgent.get_status, lookupK]
  rw [hstate]
  cases ag.state <;> decide

theorem receive_fold_lookup (know : List (String × PyVal)) :
    ∀ (mem : List (String × PyVal)) (k : String),
      lookupK k (know.foldl
          (fun m kv => if containsK kv.1 m then m else m ++ [kv]) mem) =
        match lookupK k mem with
        | some v => some v
        | none => lookupK k know := by
  induction know with
  | nil =>
    intro mem k
    rcases hk : lookupK k mem with _ | v <;> simp [hk, lookupK]
  | cons kv rest ih =>
    intro mem k
    obtain ⟨k', v⟩ := kv
    simp only [List.foldl_cons]
    by_cases hmem : containsK k' mem
    · rw [if_pos hmem, ih]
      rcases hk : lookupK k mem with _ | w
      · by_cases hkk : k' = k
        · subst hkk
          simp [containsK, hk] at hmem
        · simp [lookupK, hkk]
      · rfl
    · rw [if_neg hmem, ih, lookupK_append_single]
      rcases hk : lookupK k mem with _ | w
      · by_cases hkk : k' = k
        · simp [lookupK, hkk]
        · simp [lookupK, hkk]
      · rfl

/-- C8: `receive_knowledge` never overwrites a key already present in the
receiver's learning memory, adds every key not already present (with its
value from the incoming mapping), and on the concrete example merges
receiver `{a:1}` with incoming `{a:2, b:3}` into `{a:1, b:3}`. -/
theorem c8_receive_knowledge :
    (∀ (a : AutonomousAgent) (know : List (String × PyVal)) (k : String),
        (lookupK k a.learning_memory).isSome →
          lookupK k (a.receive_knowledge know).learning_memory =
            lookupK k a.learning_memory) ∧
      (∀ (a : AutonomousAgent) (know : List (String × PyVal)) (k : String),
        lookupK k a.learning_memory = none →
          lookupK k (a.receive_knowledge know).learning_memory =
            lookupK k know) ∧
      (AutonomousAgent.receive_knowledge
            { agent_id := "r", agent_type := "t",
              learning_memory := [("a", .num 1)] }
            [("a", .num 2), ("b", .num 3)]).learning_memory =
        [("a", .num 1), ("b", .num 3)] := by
  refine ⟨?_, ?_, by decide⟩
  · intro a know k h
    show lookupK k (know.foldl _ a.learning_memory) = _
    rw [receive_fold_lookup]
    rcases hk : lookupK k a.learning_memory with _ | v
    · rw [hk] at h
      simp at h
    · rfl
  · intro a know k h
    show lookupK k (know.foldl _ a.learning_memory) = _
    rw [receive_fold_lookup, h]

/-- C8 witness: the general parts of `c8_receive_knowledge` applied to
the concrete example agent. -/
theorem c8_receive_knowledge_witness :
    lookupK "a" (AutonomousAgent.receive_knowledge
        { agent_id := "r", agent_type := "t",
          learning_memory := [("a", .num 1)] }
        [("a", .num 2), ("b", .num 3)]).learning_memory = some (.num 1) ∧
      lookupK "b" (AutonomousAgent.receive_knowledge
        { agent_id := "r", agent_type := "t",
          learning_memory := [("a", .num 1)] }
        [("a", .num 2), ("b", .num 3)]).learning_memory = some (.num 3) := by
  constructor
  · rw [c8_receive_knowledge.1 _ _ _ (by decide)]
    decide
  · rw [c8_receive_knowledge.2.1 _ _ _ (by decide)]
    decide

theorem should_learn_iff (a : AutonomousAgent) :
    a.should_learn = true ↔
      ∃ k, 0 < k ∧ a.completed_tasks.length = 10 * k := by
  simp only [AutonomousAgent.should_learn, Bool.and_eq_true, decide_eq_true_eq,
    gt_iff_lt]
  constructor
  · rintro ⟨h1, h2⟩
    exact ⟨a.completed_tasks.length / 10, by omega, by omega⟩
  · rintro ⟨k, hk, hlen⟩
    omega

/-- C2 counterexample: a concrete agent in `IDLE` with an empty queue, no
active goals (its single goal is completed) and no completed tasks. The
code's `update_state` moves it to `PLANNING` (any non-empty goals list
triggers planning), while the claim's re-evaluation (which asks for
*active* goals) leaves it in `IDLE`. -/
theorem c2_counterexample :
    (AutonomousAgent.update_state
        { agent_id := "a", agent_type := "t", state := .IDLE,
          goals := [{ completed := true }] }).state = .PLANNING ∧
      (updateStateClaim
        { agent_id := "a", agent_type := "t", state := .IDLE,
          goals := [{ completed := true }] }).state = .IDLE := by
  decide

/-- C2 amended: for every agent not in `ERROR`, one pass of
`update_state` sets the state to `PLANNING` if the queue is non-empty and
the state is `IDLE`, or the queue is empty but the goals list is
non-empty (completed goals included — this is where the original claim's
"active goals remain" fails); else it sets the state to `LEARNING` if the
completed-task count is a positive multiple of 10; else it changes
nothing. An agent in `ERROR` is left unchanged. -/
theorem c2_update_state (a : AutonomousAgent) :
    (a.state = .ERROR → a.update_state = a) ∧
      (a.state ≠ .ERROR →
        ((a.task_queue ≠ [] ∧ a.state = .IDLE) ∨
            (a.task_queue = [] ∧ a.goals ≠ []) →
          a.update_state.state = .PLANNING) ∧
        (¬((a.task_queue ≠ [] ∧ a.state = .IDLE) ∨
            (a.task_queue = [] ∧ a.goals ≠ [])) →
          (∃ k, 0 < k ∧ a.completed_tasks.length = 10 * k) →
          a.update_state.state = .LEARNING) ∧
        (¬((a.task_queue ≠ [] ∧ a.state = .IDLE) ∨
            (a.task_queue = [] ∧ a.goals ≠ [])) →
          ¬(∃ k, 0 < k ∧ a.completed_tasks.length = 10 * k) →
          a.update_state = a)) := by
  constructor
  · intro h
    simp [AutonomousAgent.update_state, h]
  · intro hne
    refine ⟨?_, ?_, ?_⟩
    · rintro (⟨hq, hs⟩ | ⟨hq, hg⟩)
      · simp [AutonomousAgent.update_state, hne, hq, hs]
      · by_cases hIdle : a.task_queue ≠ [] ∧ a.state = .IDLE
        · simp [AutonomousAgent.update_state, hne, hIdle]
        · simp [AutonomousAgent.update_state, hne, hIdle, hq, hg]
    · intro hcond hlearn
      rw [← should_learn_iff] at hlearn
      have h1 : ¬(a.task_queue ≠ [] ∧ a.state = .IDLE) := fun h => hcond (Or.inl h)
      have h2 : ¬(a.task_queue = [] ∧ a.goals ≠ []) := fun h => hcond (Or.inr h)
      simp [AutonomousAgent.update_state, hne, h1, h2, hlearn]
    · intro hcond hlearn
      rw [← should_learn_iff] at hlearn
      have h1 : ¬(a.task_queue ≠ [] ∧ a.state = .IDLE) := fun h => hcond (Or.inl h)
      have h2 : ¬(a.task_queue = [] ∧ a.goals ≠ []) := fun h => hcond (Or.inr h)
      simp [AutonomousAgent.update_state, hne, h1, h2, hlearn]

/-- C2 witness: the amended characterization applied to two concrete
agents — one queued-and-idle agent that moves to `PLANNING`, and one
agent in `ERROR` that is left untouched. -/
theorem c2_update_state_witness :
    (AutonomousAgent.update_state
        { agent_id := "a", agent_type := "t", state := .IDLE,
          task_queue := [{ id := "t1" }] }).state = .PLANNING ∧
      AutonomousAgent.update_state
        { agent_id := "b", agent_type := "t", state := .ERROR } =
        { agent_id := "b", agent_type := "t", state := .ERROR } := by
  constructor
  · exact ((c2_update_state _).2 (by decide)).1 (Or.inl ⟨by decide, rfl⟩)
  · exact (c2_update_state _).1 rfl

theorem bumpCommonError_preserves (k : String) (hk : k ≠ "common_errors")
    (m : List (String × PyVal)) (t : AgentTask) :
    lookupK k (bumpCommonError m t) = lookupK k m := by
  unfold bumpCommonError
  split
  · rfl
  · split
    · rfl
    · split
      · exact lookupK_setK_ne (fun h => hk h.symm) _ _
      · rfl

theorem foldl_bumpCommonError_preserves (k : String) (hk : k ≠ "common_errors")
    (ts : List AgentTask) :
    ∀ m, lookupK k (ts.foldl bumpCommonError m) = lookupK k m := by
  induction ts with
  | nil => intro m; rfl
  | cons t rest ih =>
    intro m
    rw [List.foldl_cons, ih, bumpCommonError_preserves k hk]

/-- C3 amended: for every agent with completed tasks, the learning update
records `success_rate` = (completed tasks with a falsy error field, i.e.
unset or empty — the code's `not task.error`, where the original claim's
"without an error" fails on an empty error string) / (total completed),
and adapts the threshold: strictly below 4/5 it multiplies by 9/10, else
it multiplies by 21/20 capped at 19/20; with 10 completed tasks of which
2 carry non-empty errors the rate is exactly 4/5 and the cap branch is
taken. -/
theorem c3_learning_update :
    (∀ a : AutonomousAgent, a.completed_tasks ≠ [] →
      lookupK "success_rate" a.learn_from_experience.learning_memory =
          some (.num (((a.completed_tasks.filter errFalsy).length : ℚ) /
            (a.completed_tasks.length : ℚ))) ∧
        a.learn_from_experience.decision_threshold =
          (if ((a.completed_tasks.filter errFalsy).length : ℚ) /
              (a.completed_tasks.length : ℚ) < 4/5
           then a.decision_threshold * (9/10)
           else min (19/20) (a.decision_threshold * (21/20)))) ∧
      (∀ q : ℚ,
        ((c3ExampleTasks.filter errFalsy).length : ℚ) /
            (c3ExampleTasks.length : ℚ) = 4/5 ∧
        (AutonomousAgent.learn_from_experience
            { agent_id := "x", agent_type := "t", decision_threshold := q,
              completed_tasks := c3ExampleTasks }).decision_threshold =
          min (19/20) (q * (21/20))) := by
  have h8 : (c3ExampleTasks.filter errFalsy).length = 8 := by decide
  have h10 : c3ExampleTasks.length = 10 := by decide
  constructor
  · intro a _
    constructor
    · show lookupK "success_rate"
        (a.completed_tasks.foldl bumpCommonError
          (setK "common_errors" (.counter [])
            (setK "success_rate" (.num _) a.learning_memory))) = _
      rw [foldl_bumpCommonError_preserves _ (by decide),
        lookupK_setK_ne (by decide), lookupK_setK_self]
    · rfl
  · intro q
    refine ⟨by rw [h8, h10]; norm_num, ?_⟩
    have hq : (AutonomousAgent.learn_from_experience
        { agent_id := "x", agent_type := "t", decision_threshold := q,
          completed_tasks := c3ExampleTasks }).decision_threshold =
        (if ((c3ExampleTasks.filter errFalsy).length : ℚ) /
            (c3ExampleTasks.length : ℚ) < 4/5
         then q * (9/10) else min (19/20) (q * (21/20))) := rfl
    rw [hq, h8, h10]
    norm_num

/-- C3 counterexample: a completed task whose recorded error is the empty
string. The claim's formula "(completed tasks without an error)/(total)"
gives 0 for this agent (its one task has an error set), but the code's
`not task.error` treats the empty string as falsy, so the learning update
records `success_rate` = 1 and takes the cap branch (threshold
`min(0.95, 0.5*1.05) = 21/40`) instead of the cautious branch the claim
prescribes for a rate below 0.8 (which would give `0.5*0.9 = 9/20`). -/
theorem c3_counterexample :
    lookupK "success_rate"
        c3EmptyErrorAgent.learn_from_experience.learning_memory =
      some (.num 1) ∧
      ((c3EmptyErrorAgent.completed_tasks.filter
          (fun t => t.error == none)).length : ℚ) /
        (c3EmptyErrorAgent.completed_tasks.length : ℚ) = 0 ∧
      c3EmptyErrorAgent.learn_from_experience.decision_threshold = 21/40 ∧
      (21/40 : ℚ) ≠ (1/2) * (9/10) := by
  have hsr : ((c3EmptyErrorAgent.completed_tasks.filter errFalsy).length : ℚ) /
      (c3EmptyErrorAgent.completed_tasks.length : ℚ) = 1 := by
    have h1 : (c3EmptyErrorAgent.completed_tasks.filter errFalsy).length = 1 := by
      decide
    have h2 : c3EmptyErrorAgent.completed_tasks.length = 1 := by decide
    rw [h1, h2]
    norm_num
  refine ⟨?_, ?_, ?_, by norm_num⟩
  · have hmem : lookupK "success_rate"
        c3EmptyErrorAgent.learn_from_experience.learning_memory =
        some (.num
          (((c3EmptyErrorAgent.completed_tasks.filter errFalsy).length : ℚ) /
            (c3EmptyErrorAgent.completed_tasks.length : ℚ))) := by
      show lookupK "success_rate"
        (c3EmptyErrorAgent.completed_tasks.foldl bumpCommonError
          (setK "common_errors" (.counter [])
            (setK "success_rate" (.num _) c3EmptyErrorAgent.learning_memory))) = _
      rw [foldl_bumpCommonError_preserves _ (by decide),
        lookupK_setK_ne (by decide), lookupK_setK_self]
    rw [hmem, hsr]
  · have h0 : (c3EmptyErrorAgent.completed_tasks.filter
        (fun t => t.error == none)).length = 0 := by decide
    rw [h0]
    norm_num
  · have hthr : c3EmptyErrorAgent.learn_from_experience.decision_threshold =
        (if ((c3EmptyErrorAgent.completed_tasks.filter errFalsy).length : ℚ) /
            (c3EmptyErrorAgent.completed_tasks.length : ℚ) < 4/5
         then c3EmptyErrorAgent.decision_threshold * (9/10)
         else min (19/20) (c3EmptyErrorAgent.decision_threshold * (21/20))) := rfl
    rw [hthr, hsr]
    have hd : c3EmptyErrorAgent.decision_threshold = 1/2 := rfl
    rw [hd]
    norm_num [min_def]

/-- C3 witness: the amended theorem applied to the concrete
10-tasks/2-errors agent. -/
theorem c3_learning_update_witness :
    c3ExampleTasks ≠ [] ∧
      lookupK "success_rate"
          (AutonomousAgent.learn_from_experience
            { agent_id := "x", agent_type := "t", decision_threshold := 1/2,
              completed_tasks := c3ExampleTasks }).learning_memory =
        some (.num (((c3ExampleTasks.filter errFalsy).length : ℚ) /
          (c3ExampleTasks.length : ℚ))) :=
  ⟨by decide, (c3_learning_update.1 _ (by decide)).1⟩

theorem pyGe_num (v t : PyVal) (vq tq : ℚ) (hv : v.toNumQ = some vq)
    (ht : t.toNumQ = some tq) : pyGe v t = .ok (decide (tq ≤ vq)) := by
  unfold pyGe
  rw [hv, ht]

theorem evalCriteria_spec (metrics : List (String × PyVal)) :
    ∀ (criteria : List (String × PyVal)) (met : Nat),
      (∀ c t, (c, t) ∈ criteria → (PyVal.toNumQ t).isSome →
        ∀ v, lookupK c metrics = some v → (PyVal.toNumQ v).isSome) →
      evalCriteria metrics criteria met =
        .ok (met +
          (criteria.filter (fun p => criterionMetSpec metrics p.1 p.2)).length) := by
  intro criteria
  induction criteria with
  | nil => intro met _; simp [evalCriteria]
  | cons p rest ih =>
    intro met H
    obtain ⟨c, t⟩ := p
    have Hrest : ∀ c' t', (c', t') ∈ rest → (PyVal.toNumQ t').isSome →
        ∀ v, lookupK c' metrics = some v → (PyVal.toNumQ v).isSome :=
      fun c' t' hmem => H c' t' (List.mem_cons_of_mem _ hmem)
    rcases hv : lookupK c metrics with _ | v
    · have hms : criterionMetSpec metrics c t = false := by
        unfold criterionMetSpec
        rw [hv]
      simp only [evalCriteria, hv, List.filter_cons, hms]
      exact ih met Hrest
    · rcases ht : PyVal.toNumQ t with _ | tq
      · have hms : criterionMetSpec metrics c t = pyEq v t := by
          unfold criterionMetSpec
          rw [hv, ht]
        simp only [evalCriteria, hv, ht, Option.isSome_none, Bool.false_eq_true,
          if_false, List.filter_cons, hms]
        rcases he : pyEq v t with _ | _
        · simp only [Bool.false_eq_true, if_false]
          exact ih met Hrest
        · simp only [if_true, List.length_cons]
          rw [ih (met + 1) Hrest]
          congr 1
          omega
      · obtain ⟨vq, hvq⟩ := Option.isSome_iff_exists.mp
          (H c t (List.mem_cons_self _ _) (by rw [ht]; rfl) v hv)
        have hms : criterionMetSpec metrics c t = decide (tq ≤ vq) := by
          unfold criterionMetSpec
          rw [hv, ht]
          show (match v.toNumQ with
                | some vq => decide (tq ≤ vq)
                | none => false) = _
          rw [hvq]
        simp only [evalCriteria, hv, ht, Option.isSome_some, if_true,
          pyGe_num v t vq tq hvq ht, List.filter_cons, hms]
        rcases hle : decide (tq ≤ vq) with _ | _
        · simp only [Bool.false_eq_true, if_false]
          exact ih met Hrest
        · simp only [if_true, List.length_cons]
          rw [ih (met + 1) Hrest]
          congr 1
          omega

/-- C5 amended: for every goal and metrics mapping in which no
numeric-target criterion maps to a non-numeric metric value (the code
raises `TypeError` there, which is where the original claim fails),
`evaluate_progress` returns (met criteria)/(total criteria) with "met" as
the claim describes it (`criterionMetSpec`), returns 0 whenever the
success-criteria mapping is empty, and the result is always in [0,1]. -/
theorem c5_evaluate_progress (g : AgentGoal) (metrics : List (String × PyVal))
    (H : ∀ c t, (c, t) ∈ g.success_criteria → (PyVal.toNumQ t).isSome →
      ∀ v, lookupK c metrics = some v → (PyVal.toNumQ v).isSome) :
    g.evaluate_progress metrics =
        .ok (((g.success_criteria.filter
            (fun p => criterionMetSpec metrics p.1 p.2)).length : ℚ) /
          (g.success_criteria.length : ℚ)) ∧
      (g.success_criteria = [] → g.evaluate_progress metrics = .ok 0) ∧
      ∀ q, g.evaluate_progress metrics = .ok q → 0 ≤ q ∧ q ≤ 1 := by
  have hmain : g.evaluate_progress metrics =
      .ok (((g.success_criteria.filter
          (fun p => criterionMetSpec metrics p.1 p.2)).length : ℚ) /
        (g.success_criteria.length : ℚ)) := by
    unfold AgentGoal.evaluate_progress
    by_cases hempty : g.success_criteria = []
    · simp [hempty]
    · rw [if_neg hempty, evalCriteria_spec metrics g.success_criteria 0 H]
      simp
  refine ⟨hmain, ?_, ?_⟩
  · intro hempty
    rw [hmain, hempty]
    simp
  · intro q hq
    rw [hmain] at hq
    obtain rfl : q = ((g.success_criteria.filter
        (fun p => criterionMetSpec metrics p.1 p.2)).length : ℚ) /
        (g.success_criteria.length : ℚ) := by
      cases hq
      rfl
    constructor
    · positivity
    · by_cases hempty : g.success_criteria = []
      · simp [hempty]
      · have hlen : 0 < (g.success_criteria.length : ℚ) := by
          have := List.length_pos.mpr hempty
          exact_mod_cast this
        rw [div_le_one hlen]
        exact_mod_cast List.length_filter_le _ _

/-- C5 counterexample: a numeric target paired with a string metric makes
the code's `metrics[criterion] >= target` raise `TypeError`, so
`evaluate_progress` returns no ratio at all — contradicting the claim
that every metrics mapping yields (met)/(total) in [0,1] (the claim
counts a non-numeric metric as simply not met). -/
theorem c5_counterexample :
    AgentGoal.evaluate_progress
        { id := "g", success_criteria := [("c", .num 1)] }
        [("c", .str "x")] = .error "TypeError" := rfl

/-- C5 witness: the amended theorem applied to a concrete goal with one
numeric and one string criterion, both met. -/
theorem c5_evaluate_progress_witness :
    c5WitnessGoal.evaluate_progress c5WitnessMetrics =
      .ok (((c5WitnessGoal.success_criteria.filter
          (fun p => criterionMetSpec c5WitnessMetrics p.1 p.2)).length : ℚ) /
        (c5WitnessGoal.success_criteria.length : ℚ)) := by
  refine (c5_evaluate_progress c5WitnessGoal c5WitnessMetrics ?_).1
  intro c t hmem ht v hv
  have hcases : (c, t) = ("c", PyVal.num 1) ∨ (c, t) = ("d", PyVal.str "ok") := by
    simpa [c5WitnessGoal] using hmem
  rcases hcases with h | h
  · rw [Prod.ext_iff] at h
    obtain ⟨rfl, rfl⟩ := h
    simp only [c5WitnessMetrics, lookupK, if_pos] at hv
    cases hv
    rfl
  · rw [Prod.ext_iff] at h
    obtain ⟨rfl, rfl⟩ := h
    simp [PyVal.toNumQ] at ht

theorem keyLtB_iff (a b : Nat × Nat × Nat) :
    keyLtB a b = true ↔
      a.1 < b.1 ∨ (a.1 = b.1 ∧
        (a.2.1 < b.2.1 ∨ (a.2.1 = b.2.1 ∧ a.2.2 < b.2.2))) := by
  simp [keyLtB]

theorem keyLtB_asymm {a b : Nat × Nat × Nat} (h : keyLtB a b = true) :
    keyLtB b a = false := by
  rw [← Bool.not_eq_true, keyLtB_iff]
  rw [keyLtB_iff] at h
  omega

theorem keyLtB_lt_of_le {a b c : Nat × Nat × Nat} (h1 : keyLtB a b = true)
    (h2 : keyLtB c b = false) : keyLtB c a = false := by
  rw [← Bool.not_eq_true, keyLtB_iff]
  rw [keyLtB_iff] at h1
  rw [← Bool.not_eq_true, keyLtB_iff] at h2
  omega

theorem insertTask_perm (t : AgentTask) (l : List AgentTask) :
    List.Perm (insertTask t l) (t :: l) := by
  induction l with
  | nil => exact List.Perm.refl _
  | cons u us ih =>
    unfold insertTask
    by_cases h : keyLtB (taskKey t) (taskKey u) = true
    · simp [h]
    · simp only [h, Bool.false_eq_true, if_false]
      exact (ih.cons u).trans (List.Perm.swap t u us)

theorem insertTask_sorted (t : AgentTask) (l : List AgentTask)
    (hs : TaskSorted l) : TaskSorted (insertTask t l) := by
  induction l with
  | nil => simp [insertTask, TaskSorted]
  | cons u us ih =>
    rw [TaskSorted, List.pairwise_cons] at hs
    obtain ⟨hu, hus⟩ := hs
    unfold insertTask
    by_cases h : keyLtB (taskKey t) (taskKey u) = true
    · simp only [h, if_true]
      rw [TaskSorted, List.pairwise_cons]
      constructor
      · intro w hw
        rcases List.mem_cons.mp hw with rfl | hw
        · exact keyLtB_asymm h
        · exact keyLtB_lt_of_le h (hu w hw)
      · rw [TaskSorted, List.pairwise_cons] at *
        exact ⟨hu, hus⟩
    · simp only [h, Bool.false_eq_true, if_false]
      rw [TaskSorted, List.pairwise_cons]
      constructor
      · intro w hw
        rcases List.mem_cons.mp ((insertTask_perm t us).mem_iff.mp hw) with rfl | hw
        · exact Bool.not_eq_true _ ▸ h
        · exact hu w hw
      · exact ih hus

theorem sortTasks_perm (l : List AgentTask) : List.Perm (sortTasks l) l := by
  have key : ∀ (l acc : List AgentTask),
      List.Perm (l.foldl (fun acc t => insertTask t acc) acc) (acc ++ l) := by
    intro l
    induction l with
    | nil => intro acc; simp
    | cons t rest ih =>
      intro acc
      rw [List.foldl_cons]
      refine (ih (insertTask t acc)).trans ?_
      refine (((insertTask_perm t acc).append_right rest).trans ?_)
      exact (List.perm_middle).symm
  simpa using key l []

theorem sortTasks_sorted (l : List AgentTask) : TaskSorted (sortTasks l) := by
  have key : ∀ (l acc : List AgentTask), TaskSorted acc →
      TaskSorted (l.foldl (fun acc t => insertTask t acc) acc) := by
    intro l
    induction l with
    | nil => intro acc h; exact h
    | cons t rest ih =>
      intro acc h
      rw [List.foldl_cons]
      exact ih _ (insertTask_sorted t acc h)
  exact key l [] (by simp [TaskSorted])

/-- C6: for every sequence of tasks added via `add_task` starting from an
empty queue, the queue is a permutation of the added tasks, is sorted by
the priority key (CRITICAL before HIGH before NORMAL before LOW before
BACKGROUND, ties by earliest scheduled time with absent times last), and
the dequeued head is minimal for that key; the concrete [LOW, CRITICAL,
NORMAL] example dequeues as [CRITICAL, NORMAL, LOW]. -/
theorem c6_dequeue_order :
    (∀ ts : List AgentTask,
      List.Perm (ts.foldl enqueue []) ts ∧
        TaskSorted (ts.foldl enqueue []) ∧
        ∀ h rest, ts.foldl enqueue [] = h :: rest →
          ∀ u ∈ rest, keyLtB (taskKey u) (taskKey h) = false) ∧
      [tLOW, tCRIT, tNORM].foldl enqueue [] = [tCRIT, tNORM, tLOW] := by
  constructor
  · intro ts
    have hperm : ∀ (ts q : List AgentTask),
        List.Perm (ts.foldl enqueue q) (q ++ ts) := by
      intro ts
      induction ts with
      | nil => intro q; simp
      | cons t rest ih =>
        intro q
        rw [List.foldl_cons]
        refine (ih (enqueue q t)).trans ?_
        refine ((sortTasks_perm (q ++ [t])).append_right rest).trans ?_
        simp
    have hsorted : TaskSorted (ts.foldl enqueue []) := by
      rcases ts with _ | ⟨t, rest⟩
      · simp [TaskSorted]
      · have : ∀ (l : List AgentTask) (q : List AgentTask), TaskSorted q →
            TaskSorted (l.foldl enqueue q) := by
          intro l
          induction l with
          | nil => intro q h; exact h
          | cons u us ih => intro q h; exact ih _ (sortTasks_sorted _)
        exact this _ [] (by simp [TaskSorted])
    refine ⟨by simpa using hperm ts [], hsorted, ?_⟩
    intro h rest heq u hu
    rw [heq, TaskSorted, List.pairwise_cons] at hsorted
    exact hsorted.1 u hu
  · rfl

/-- C6 witness: the general part applied to the concrete example queue;
its head `tCRIT` is minimal for the priority key. -/
theorem c6_dequeue_order_witness :
    keyLtB (taskKey tNORM) (taskKey tCRIT) = false ∧
      keyLtB (taskKey tLOW) (taskKey tCRIT) = false := by
  have hq : [tLOW, tCRIT, tNORM].foldl enqueue [] = tCRIT :: [tNORM, tLOW] := rfl
  exact ⟨(c6_dequeue_order.1 [tLOW, tCRIT, tNORM]).2.2 tCRIT [tNORM, tLOW] hq
      tNORM (by simp),
    (c6_dequeue_order.1 [tLOW, tCRIT, tNORM]).2.2 tCRIT [tNORM, tLOW] hq
      tLOW (by simp)⟩

/-- C7: for every goal whose description contains "optimize"
(case-insensitively), default decomposition emits exactly the three
hardcoded tasks `analyze_current_state`, `identify_bottlenecks`,
`implement_optimizations`, and enqueueing them into an empty queue keeps
exactly that order — HIGH, HIGH, NORMAL, with the stable tie-break
preserving insertion order for the equal HIGH priorities; a description
without the keyword decomposes to no tasks. -/
theorem c7_decompose_optimize (a : AutonomousAgent) (g : AgentGoal) :
    (occursIn "optimize".toList (pyLower g.description) = true →
      a.decompose_goal g =
          [{ goal_id := g.id, action := "analyze_current_state",
             parameters := [("target", .str "performance_metrics")],
             priority := .HIGH },
           { goal_id := g.id, action := "identify_bottlenecks",
             parameters := [("threshold", .num (7/10))], priority := .HIGH },
           { goal_id := g.id, action := "implement_optimizations",
             parameters := [("auto_approve", .pybool true)],
             priority := .NORMAL }] ∧
        (a.decompose_goal g).foldl enqueue [] =
          [{ goal_id := g.id, action := "analyze_current_state",
             parameters := [("target", .str "performance_metrics")],
             priority := .HIGH },
           { goal_id := g.id, action := "identify_bottlenecks",
             parameters := [("threshold", .num (7/10))], priority := .HIGH },
           { goal_id := g.id, action := "implement_optimizations",
             parameters := [("auto_approve", .pybool true)],
             priority := .NORMAL }]) ∧
      (occursIn "optimize".toList (pyLower g.description) = false →
        a.decompose_goal g = []) := by
  constructor
  · intro h
    have hd : a.decompose_goal g =
        [{ goal_id := g.id, action := "analyze_current_state",
           parameters := [("target", .str "performance_metrics")],
           priority := .HIGH },
         { goal_id := g.id, action := "identify_bottlenecks",
           parameters := [("threshold", .num (7/10))], priority := .HIGH },
         { goal_id := g.id, action := "implement_optimizations",
           parameters := [("auto_approve", .pybool true)],
           priority := .NORMAL }] := by
      unfold AutonomousAgent.decompose_goal
      rw [if_pos h]
    refine ⟨hd, ?_⟩
    rw [hd]
    rfl
  · intro h
    unfold AutonomousAgent.decompose_goal
    rw [h]
    simp

/-- C7 witness: a goal whose description contains "Optimize" decomposes
into the three tasks and enqueues in order, and one without the keyword
decomposes to nothing. -/
theorem c7_decompose_optimize_witness :
    (AutonomousAgent.decompose_goal { agent_id := "w", agent_type := "t" }
          { id := "g1", description := "Optimize the pipeline" }).foldl enqueue [] =
        [{ goal_id := "g1", action := "analyze_current_state",
           parameters := [("target", .str "performance_metrics")],
           priority := .HIGH },
         { goal_id := "g1", action := "identify_bottlenecks",
           parameters := [("threshold", .num (7/10))], priority := .HIGH },
         { goal_id := "g1", action := "implement_optimizations",
           parameters := [("auto_approve", .pybool true)],
           priority := .NORMAL }] ∧
      AutonomousAgent.decompose_goal { agent_id := "w", agent_type := "t" }
          { id := "g2", description := "improve throughput" } = [] :=
  ⟨((c7_decompose_optimize { agent_id := "w", agent_type := "t" }
      { id := "g1", description := "Optimize the pipeline" }).1 (by decide)).2,
    (c7_decompose_optimize { agent_id := "w", agent_type := "t" }
      { id := "g2", description := "improve throughput" }).2 (by decide)⟩

theorem failIter_retry_count (msg : AgentTask → String) (t : AgentTask) :
    ∀ k, (failIter msg t k).retry_count = t.retry_count + k := by
  intro k
  induction k with
  | zero => rfl
  | succ k ih => simp [failIter, failStep, ih]; omega

theorem failIter_max_retries (msg : AgentTask → String) (t : AgentTask) :
    ∀ k, (failIter msg t k).max_retries = t.max_retries := by
  intro k
  induction k with
  | zero => rfl
  | succ k ih => simp [failIter, failStep, ih]

theorem failIter_completed (msg : AgentTask → String) (t : AgentTask) :
    ∀ k, (failIter msg t k).completed = t.completed := by
  intro k
  induction k with
  | zero => rfl
  | succ k ih => simp [failIter, failStep, ih]

theorem failIter_result (msg : AgentTask → String) (t : AgentTask) :
    ∀ k, (failIter msg t k).result = t.result := by
  intro k
  induction k with
  | zero => rfl
  | succ k ih => simp [failIter, failStep, ih]

theorem exec_fail_requeue (msg : AgentTask → String) (b : AutonomousAgent)
    (u : AgentTask) (hq : b.task_queue = [u])
    (hlt : u.retry_count + 1 < u.max_retries) :
    AutonomousAgent.execute_tasks (fun task => .error (msg task)) b =
      { b with task_queue := [failStep msg u] } := by
  unfold AutonomousAgent.execute_tasks
  rw [hq]
  have hlt' : (failStep msg u).retry_count < (failStep msg u).max_retries := hlt
  show (if (failStep msg u).retry_count < (failStep msg u).max_retries then
      AutonomousAgent.add_task { b with task_queue := [] } (failStep msg u)
    else
      { b with task_queue := [],
               completed_tasks := b.completed_tasks ++ [failStep msg u] }) = _
  rw [if_pos hlt']
  rfl

theorem exec_fail_exhaust (msg : AgentTask → String) (b : AutonomousAgent)
    (u : AgentTask) (hq : b.task_queue = [u])
    (hge : ¬(u.retry_count + 1 < u.max_retries)) :
    AutonomousAgent.execute_tasks (fun task => .error (msg task)) b =
      { b with task_queue := [],
               completed_tasks := b.completed_tasks ++ [failStep msg u] } := by
  unfold AutonomousAgent.execute_tasks
  rw [hq]
  have hge' : ¬((failStep msg u).retry_count < (failStep msg u).max_retries) := hge
  show (if (failStep msg u).retry_count < (failStep msg u).max_retries then
      AutonomousAgent.add_task { b with task_queue := [] } (failStep msg u)
    else
      { b with task_queue := [],
               completed_tasks := b.completed_tasks ++ [failStep msg u] }) = _
  rw [if_neg hge']

theorem iter_fail_queue (msg : AgentTask → String) (a : AutonomousAgent)
    (t : AgentTask) (hq : a.task_queue = [t]) (hr : t.retry_count = 0) :
    ∀ k, k < t.max_retries →
      iterExec (fun task => .error (msg task)) k a =
        { a with task_queue := [failIter msg t k] } := by
  intro k
  induction k with
  | zero =>
    intro _
    show a = { a with task_queue := [failIter msg t 0] }
    rw [show failIter msg t 0 = t from rfl, ← hq]
  | succ k ih =>
    intro hk1
    have hk : k < t.max_retries := Nat.lt_of_succ_lt hk1
    show AutonomousAgent.execute_tasks _ (iterExec _ k a) = _
    rw [ih hk]
    rw [exec_fail_requeue msg _ (failIter msg t k) rfl
      (by rw [failIter_retry_count, failIter_max_retries, hr]; omega)]
    rfl

/-- C1 amended: for every task with `max_retries ≥ 1` (where the original
claim, stated for every task, fails at `max_retries = 0`) whose handler
fails on every execution, starting from an agent whose queue holds just
that task with `retry_count = 0`: during the first `max_retries - 1`
executions the task sits requeued with `retry_count = k` and the
completed list untouched (so it is never duplicated), and after exactly
`max_retries` executions the queue is empty and the task appears exactly
once at the end of the completed list, failed-exhausted: `retry_count =
max_retries`, error set, completion flag and result untouched. -/
theorem c1_failing_task_retries (msg : AgentTask → String)
    (a : AutonomousAgent) (t : AgentTask) (hq : a.task_queue = [t])
    (hr : t.retry_count = 0) (hm : 1 ≤ t.max_retries) :
    (∀ k, k < t.max_retries →
      (iterExec (fun task => .error (msg task)) k a).task_queue =
          [failIter msg t k] ∧
        (iterExec (fun task => .error (msg task)) k a).completed_tasks =
          a.completed_tasks ∧
        (failIter msg t k).retry_count = k ∧ k ≤ t.max_retries) ∧
      (iterExec (fun task => .error (msg task)) t.max_retries a).task_queue =
        [] ∧
      (iterExec (fun task => .error (msg task)) t.max_retries a).completed_tasks
        = a.completed_tasks ++ [failIter msg t t.max_retries] ∧
      (failIter msg t t.max_retries).retry_count = t.max_retries ∧
      (failIter msg t t.max_retries).error ≠ none ∧
      (failIter msg t t.max_retries).completed = t.completed ∧
      (failIter msg t t.max_retries).result = t.result := by
  have hfinal : iterExec (fun task => .error (msg task)) t.max_retries a =
      { a with task_queue := [],
               completed_tasks :=
                 a.completed_tasks ++ [failIter msg t t.max_retries] } := by
    obtain ⟨m, hm'⟩ : ∃ m, t.max_retries = m + 1 :=
      ⟨t.max_retries - 1, by omega⟩
    rw [hm']
    show AutonomousAgent.execute_tasks _ (iterExec _ m a) = _
    rw [iter_fail_queue msg a t hq hr m (by omega)]
    rw [exec_fail_exhaust msg _ (failIter msg t m) rfl
      (by rw [failIter_retry_count, failIter_max_retries, hr, hm']; omega)]
    have hstep : failStep msg (failIter msg t m) = failIter msg t (m + 1) := rfl
    rw [hstep]
  refine ⟨?_, ?_, ?_, ?_, ?_, failIter_completed msg t _, failIter_result msg t _⟩
  · intro k hk
    rw [iter_fail_queue msg a t hq hr k hk]
    exact ⟨rfl, rfl, by rw [failIter_retry_count, hr]; omega, by omega⟩
  · rw [hfinal]
  · rw [hfinal]
  · rw [failIter_retry_count, hr]
    omega
  · obtain ⟨m, hm'⟩ : ∃ m, t.max_retries = m + 1 :=
      ⟨t.max_retries - 1, by omega⟩
    rw [hm']
    show (failStep msg (failIter msg t m)).error ≠ none
    simp [failStep]

/-- C1 counterexample: a task constructed with `max_retries = 0`. Its
first failing execution bumps `retry_count` to 1 — already above
`max_retries` — and immediately appends it to the completed list, so the
task is exhausted after 1 execution, not after `max_retries = 0`, and the
claimed invariant `retry_count ≤ max_retries` is violated. -/
theorem c1_counterexample :
    (iterExec (fun _ => Except.error "boom") 1
        { agent_id := "x", agent_type := "t",
          task_queue := [{ id := "z", max_retries := 0 }] }).completed_tasks =
        [{ id := "z", max_retries := 0, retry_count := 1,
           error := some "boom" }] ∧
      ¬((1 : Nat) ≤ ({ id := "z", max_retries := 0 } : AgentTask).max_retries) :=
  ⟨rfl, by decide⟩

/-- C1 witness: the amended theorem applied to a task with the default
retry budget of 3 and a constant failing handler. -/
theorem c1_failing_task_retries_witness :
    (iterExec (fun task => .error ((fun _ => "boom") task)) 3
        { agent_id := "x", agent_type := "t",
          task_queue := [({ id := "t1" } : AgentTask)] }).task_queue = [] ∧
      (iterExec (fun task => .error ((fun _ => "boom") task)) 3
        { agent_id := "x", agent_type := "t",
          task_queue := [({ id := "t1" } : AgentTask)] }).completed_tasks =
        [] ++ [failIter (fun _ => "boom") ({ id := "t1" } : AgentTask) 3] := by
  have h := c1_failing_task_retries (fun _ => "boom")
    { agent_id := "x", agent_type := "t",
      task_queue := [({ id := "t1" } : AgentTask)] }
    ({ id := "t1" } : AgentTask) rfl rfl (by decide)
  exact ⟨h.2.1, h.2.2.1⟩

theorem shutdown_agent_id (b : AutonomousAgent) :
    (b.shutdown).agent_id = b.agent_id := rfl

theorem shutdown_is_running (b : AutonomousAgent) :
    (b.shutdown).is_running = false := rfl

theorem setK_of_lookupK_eq (k : String) (v : α) :
    ∀ (m : List (String × α)), lookupK k m = some v → setK k v m = m := by
  intro m
  induction m with
  | nil => intro h; simp [lookupK] at h
  | cons p rest ih =>
    obtain ⟨k', v'⟩ := p
    intro h
    by_cases hk : k' = k
    · subst hk
      have h' : v' = v := by simpa [lookupK] using h
      subst h'
      simp [setK]
    · simp only [lookupK, if_neg hk] at h
      simp [setK, hk, ih h]

theorem delK_sublist (k : String) :
    ∀ (m : List (String × α)), List.Sublist (delK k m) m := by
  intro m
  induction m with
  | nil => simp [delK]
  | cons p rest ih =>
    obtain ⟨k', v'⟩ := p
    by_cases hk : k' = k
    · simp only [delK, if_pos hk]
      exact List.sublist_cons_self _ _
    · simp only [delK, if_neg hk]
      exact ih.cons₂ _

theorem lookupK_mem_keys (k : String) :
    ∀ (m : List (String × α)) (v : α), lookupK k m = some v →
      k ∈ m.map Prod.fst := by
  intro m
  induction m with
  | nil => intro v h; simp [lookupK] at h
  | cons p rest ih =>
    obtain ⟨k', v'⟩ := p
    intro v h
    by_cases hk : k' = k
    · simp [hk]
    · simp only [lookupK, if_neg hk] at h
      simpa using Or.inr (ih v h)

theorem containsK_delK_self (k : String) :
    ∀ (m : List (String × α)), (m.map Prod.fst).Nodup →
      containsK k (delK k m) = false := by
  intro m
  induction m with
  | nil => intro _; rfl
  | cons p rest ih =>
    obtain ⟨k', v'⟩ := p
    intro hnd
    simp only [List.map_cons, List.nodup_cons] at hnd
    by_cases hk : k' = k
    · subst hk
      have hd : delK k' ((k', v') :: rest) = rest := by simp [delK]
      rw [hd]
      rcases hL : lookupK k' rest with _ | w
      · simp [containsK, hL]
      · exact absurd (lookupK_mem_keys k' rest w hL) hnd.1
    · have hd : delK k ((k', v') :: rest) = (k', v') :: delK k rest := by
        simp [delK, hk]
      rw [hd]
      simp only [containsK, lookupK, if_neg hk]
      exact ih hnd.2

theorem setK_setK (k : String) (v w : α) :
    ∀ m : List (String × α), setK k v (setK k w m) = setK k v m := by
  intro m
  induction m with
  | nil => simp [setK]
  | cons p rest ih =>
    obtain ⟨k', v'⟩ := p
    by_cases hk : k' = k
    · subst hk
      simp [setK]
    · simp [setK, hk, ih]

theorem scaleDown_spec (ty : String) :
    ∀ (k : Nat) (o : AgentOrchestrator) (pool : List AutonomousAgent),
      lookupK ty o.agent_pools = some pool →
      k ≤ pool.length →
      (pool.map (fun b => b.agent_id)).Nodup →
      (∀ b ∈ pool, containsK b.agent_id o.agents = true) →
      (o.agents.map Prod.fst).Nodup →
      ∃ o' : AgentOrchestrator,
        scaleDown o ty k =
            some (o', ((pool.drop (pool.length - k)).reverse).map
              AutonomousAgent.shutdown) ∧
          o'.agent_pools = setK ty (pool.take (pool.length - k)) o.agent_pools ∧
          (∀ b ∈ pool.drop (pool.length - k),
            containsK b.agent_id o'.agents = false) ∧
          (∀ x : String,
            (∀ b ∈ pool.drop (pool.length - k), x ≠ b.agent_id) →
            lookupK x o'.agents = lookupK x o.agents) ∧
          (o'.agents.map Prod.fst).Nodup := by
  intro k
  induction k with
  | zero =>
    intro o pool hpool _ _ _ hreg
    refine ⟨o, ?_, ?_, ?_, ?_, hreg⟩
    · simp [scaleDown, List.drop_length]
    · rw [Nat.sub_zero, List.take_length]
      exact (setK_of_lookupK_eq ty pool _ hpool).symm
    · intro b hb
      rw [Nat.sub_zero, List.drop_length] at hb
      simp at hb
    · intro x _
      rfl
  | succ k ih =>
    intro o pool hpool hk hnodup hcont hreg
    obtain ⟨q, u, hsplit⟩ : ∃ q u, pool = q ++ [u] := by
      rcases List.eq_nil_or_concat pool with h | ⟨q, u, h⟩
      · subst h
        simp at hk
      · exact ⟨q, u, by rw [h, List.concat_eq_append]⟩
    subst hsplit
    have hk' : k ≤ q.length := by
      simp only [List.length_append, List.length_singleton] at hk
      omega
    have hnd' := hnodup
    rw [List.map_append, List.nodup_append] at hnd'
    obtain ⟨hqnd, _, hdisj⟩ := hnd'
    have hu_not_q : u.agent_id ∉ q.map (fun b => b.agent_id) := by
      intro hmem
      exact hdisj hmem (by simp)
    have hcontu : containsK u.agent_id o.agents = true :=
      hcont u (by simp)
    have hregq : ∀ b ∈ q,
        containsK b.agent_id (delK u.agent_id o.agents) = true := by
      intro b hb
      have hne : u.agent_id ≠ b.agent_id := by
        intro h
        exact hu_not_q (h ▸ List.mem_map_of_mem (fun b => b.agent_id) hb)
      rw [containsK, lookupK_delK_ne hne, ← containsK]
      exact hcont b (List.mem_append_left _ hb)
    have hndreg : ((delK u.agent_id o.agents).map Prod.fst).Nodup :=
      List.Nodup.sublist ((delK_sublist u.agent_id o.agents).map Prod.fst) hreg
    obtain ⟨o', heq, hpools, hgone, hkeep, hnd⟩ :=
      ih { agents := delK u.agent_id o.agents,
           agent_pools := setK ty q o.agent_pools } q
        (lookupK_setK_self ty q o.agent_pools) hk' hqnd hregq hndreg
    have hstep : scaleDown o ty (k + 1) =
        some (o', u.shutdown ::
          ((q.drop (q.length - k)).reverse).map AutonomousAgent.shutdown) := by
      simp only [scaleDown, hpool, Option.getD_some, List.getLast?_concat,
        shutdown_agent_id, List.dropLast_concat]
      rw [if_pos hcontu, heq]
    have harith : (q ++ [u]).length - (k + 1) = q.length - k := by
      simp only [List.length_append, List.length_singleton]
      omega
    have htake : (q ++ [u]).take (q.length - k) = q.take (q.length - k) :=
      List.take_append_of_le_length (by omega)
    have hdrop : (q ++ [u]).drop (q.length - k) = q.drop (q.length - k) ++ [u] :=
      List.drop_append_of_le_length (by omega)
    have hgoneu : containsK u.agent_id o'.agents = false := by
      have hx : ∀ b ∈ q.drop (q.length - k), u.agent_id ≠ b.agent_id := by
        intro b hb h
        exact hu_not_q
          (h ▸ List.mem_map_of_mem (fun b => b.agent_id) (List.mem_of_mem_drop hb))
      rw [containsK, hkeep u.agent_id hx]
      show containsK u.agent_id (delK u.agent_id o.agents) = false
      exact containsK_delK_self u.agent_id o.agents hreg
    refine ⟨o', ?_, ?_, ?_, ?_, hnd⟩
    · rw [hstep, harith, hdrop]
      simp
    · rw [harith, htake, hpools, setK_setK]
    · intro b hb
      rw [harith, hdrop] at hb
      rcases List.mem_append.mp hb with hb | hb
      · exact hgone b hb
      · rw [List.mem_singleton] at hb
        subst hb
        exact hgoneu
    · intro x hx
      rw [harith, hdrop] at hx
      have hxu : x ≠ u.agent_id := hx u (by simp)
      have hxq : ∀ b ∈ q.drop (q.length - k), x ≠ b.agent_id := by
        intro b hb
        exact hx b (List.mem_append_left _ hb)
      rw [hkeep x hxq]
      show lookupK x (delK u.agent_id o.agents) = lookupK x o.agents
      exact lookupK_delK_ne (fun h => hxu h.symm) _

theorem deploy_fleet_pool (ty : String) (config : List (String × PyVal))
    (now : Nat) :
    ∀ (count : Nat) (o : AgentOrchestrator) (pool : List AutonomousAgent),
      lookupK ty o.agent_pools = some pool →
      lookupK ty (o.deploy_agent_fleet ty count config now).agent_pools =
        some (pool ++ (List.range count).map (fun i =>
          { (initAgent (newAgent (ty ++ "_" ++ pad3 i) ty now) config now) with
            is_running := true })) := by
  intro count
  induction count with
  | zero =>
    intro o pool hpool
    simpa [AgentOrchestrator.deploy_agent_fleet] using hpool
  | succ n ih =>
    intro o pool hpool
    have hfleet : o.deploy_agent_fleet ty (n + 1) config now =
        (o.deploy_agent_fleet ty n config now).deploy_agent
          (newAgent (ty ++ "_" ++ pad3 n) ty now) config now := by
      simp [AgentOrchestrator.deploy_agent_fleet, List.range_succ]
    rw [hfleet]
    have hn := ih o pool hpool
    show lookupK ty (setK _ _ _) = _
    rw [show ({ (initAgent (newAgent (ty ++ "_" ++ pad3 n) ty now) config now) with
        is_running := true } : AutonomousAgent).agent_type = ty from rfl]
    rw [lookupK_setK_self, hn]
    simp [List.range_succ]

/-- C9 amended: for every orchestrator whose pool for the given type
lists agents with pairwise-distinct ids, each present in the (itself
duplicate-free) id registry — as holds after a fresh fleet deployment —
`scale_fleet` with a target above the pool size deploys exactly the
difference, and with a target below shuts down and removes the excess in
LIFO order from both the pool and the registry; concretely, scaling a
fresh 3-agent fleet down to 1 leaves exactly one registered agent of the
type and the two removed agents report a shut-down status. (Without the
id-consistency hypotheses the original claim fails: scale-up always
numbers fresh ids from 0, and after a scale-down/scale-up cycle the
resulting id collisions make a later scale-down raise `KeyError`, see the
counterexample.) -/
theorem c9_scale_fleet :
    (∀ (o : AgentOrchestrator) (ty : String) (target now : Nat)
        (pool : List AutonomousAgent),
      lookupK ty o.agent_pools = some pool →
      (pool.map (fun b => b.agent_id)).Nodup →
      (∀ b ∈ pool, containsK b.agent_id o.agents = true) →
      (o.agents.map Prod.fst).Nodup →
      (pool.length < target →
        ∃ o', o.scale_fleet ty target now = some (o', []) ∧
          lookupK ty o'.agent_pools =
            some (pool ++ (List.range (target - pool.length)).map (fun i =>
              { (initAgent (newAgent (ty ++ "_" ++ pad3 i) ty now)
                  [("auto_scale", .pybool true)] now) with
                is_running := true })) ∧
          ((lookupK ty o'.agent_pools).getD []).length = target) ∧
      (target < pool.length →
        ∃ o' removed, o.scale_fleet ty target now = some (o', removed) ∧
          removed = ((pool.drop target).reverse).map AutonomousAgent.shutdown ∧
          o'.agent_pools = setK ty (pool.take target) o.agent_pools ∧
          (∀ b ∈ removed, b.is_running = false) ∧
          (∀ b ∈ pool.drop target,
            containsK b.agent_id o'.agents = false) ∧
          (∀ x : String, (∀ b ∈ pool.drop target, x ≠ b.agent_id) →
            lookupK x o'.agents = lookupK x o.agents))) ∧
      (c9Fleet3.scale_fleet "w" 1 0).map (fun p =>
          (p.1.agents.map Prod.fst,
           ((lookupK "w" p.1.agent_pools).getD []).map (fun b => b.agent_id),
           p.2.map (fun b => (b.agent_id, b.is_running)))) =
        some (["w_000"], ["w_000"], [("w_002", false), ("w_001", false)]) := by
  constructor
  · intro o ty target now pool hpool hnodup hcont hregnd
    have hcur : ((lookupK ty o.agent_pools).getD []).length = pool.length := by
      rw [hpool]
      rfl
    constructor
    · intro hlt
      refine ⟨o.deploy_agent_fleet ty (target - pool.length)
        [("auto_scale", .pybool true)] now, ?_, ?_, ?_⟩
      · unfold AgentOrchestrator.scale_fleet
        rw [hcur, if_pos hlt]
      · exact deploy_fleet_pool ty _ now _ o pool hpool
      · rw [deploy_fleet_pool ty _ now _ o pool hpool]
        simp only [Option.getD_some, List.length_append, List.length_map,
          List.length_range]
        omega
    · intro hlt
      obtain ⟨o', heq, hpools, hgone, hkeep, _⟩ :=
        scaleDown_spec ty (pool.length - target) o pool hpool (by omega)
          hnodup hcont hregnd
      have harith : pool.length - (pool.length - target) = target := by omega
      rw [harith] at heq hpools hgone hkeep
      refine ⟨o', ((pool.drop target).reverse).map AutonomousAgent.shutdown,
        ?_, rfl, hpools, ?_, hgone, hkeep⟩
      · unfold AgentOrchestrator.scale_fleet
        rw [hcur, if_neg (by omega), if_pos hlt]
        exact heq
      · intro b hb
        obtain ⟨c, _, rfl⟩ := List.mem_map.mp hb
        rfl
  · rfl

/-- C9 counterexample: `deploy_agent_fleet` always numbers fresh ids from
0, so deploying one "w" agent (id `w_000`) and scaling to 2 deploys a
second agent that reuses id `w_000`: the registry entry is overwritten
while the pool keeps both objects. Scaling that orchestrator down to 0
pops the two pool agents in LIFO order and, on the second one, `del
agents[agent_id]` hits a missing key: a `KeyError` (`none`) instead of
the claimed removal of the excess agents — refuting the claim for this
reachable orchestrator. -/
theorem c9_counterexample :
    (AgentOrchestrator.scale_fleet
        (AgentOrchestrator.deploy_agent_fleet {} "w" 1 [] 0) "w" 2 0).isSome =
        true ∧
      ((AgentOrchestrator.scale_fleet
          (AgentOrchestrator.deploy_agent_fleet {} "w" 1 [] 0) "w" 2 0).bind
        (fun p => AgentOrchestrator.scale_fleet p.1 "w" 0 0)) = none :=
  ⟨rfl, rfl⟩

/-- C9 witness: the amended theorem applied to the fresh 3-agent fleet
scaled down to 1 — the two removed agents are the last two deployed, in
LIFO order, and both report a shut-down status. -/
theorem c9_scale_fleet_witness :
    ∃ o' removed, c9Fleet3.scale_fleet "w" 1 0 = some (o', removed) ∧
      removed =
        ((((lookupK "w" c9Fleet3.agent_pools).getD []).drop 1).reverse).map
          AutonomousAgent.shutdown ∧
      ∀ b ∈ removed, b.is_running = false := by
  obtain ⟨o', removed, h1, h2, _, h4, _, _⟩ :=
    (c9_scale_fleet.1 c9Fleet3 "w" 1 0
      ((lookupK "w" c9Fleet3.agent_pools).getD []) rfl (by decide) (by decide)
      (by decide)).2 (by decide)
  exact ⟨o', removed, h1, h2, h4⟩
